import Mathlib

/-!
Verification development for the Volty price-monitor application.

The development shallowly embeds the core services of the repository:

* `ElectricityPriceService.fetchCurrentPrice` / `getPriceHistory`
  (src/volty-app/app/services/electricityPriceService.ts),
* the timer-based `BackgroundTaskService.startPeriodicPriceCheck` /
  `stopPeriodicPriceCheck` (src/unnamed/part_000),
* `NotificationService.requestPermissions` / `sendLowPriceNotification`
  (src/volty-app/app/services/notificationService.ts),
* the `useElectricityPriceMonitor` hook's `refreshPrice`, `startMonitoring`,
  `stopMonitoring`, `toggleMonitoring`
  (src/volty-app/app/hooks/useElectricityPriceMonitor.ts).

External effects (HTTP fetch, JSON parse result, notification delivery,
permission prompt, timers) are passed in explicitly as environment values, so
every operation is a total Lean function of its inputs; JavaScript's NaN is
modelled as `none` in `Option ℚ` and an Invalid Date as `none` in
`Option ℤ`.
-/

namespace Volty

/-! ### JavaScript numeric string parsing

Models of the JS builtins `parseFloat` and `parseInt` (radix unspecified,
decimal input) as used on the feed's `price` and `millisUTC` fields.
`none` models NaN: no parsable numeric prefix.  The special inputs
"Infinity"/hex prefixes are outside the modelled domain (the feed carries
plain decimal strings).
-/

/-- Numeric value of a list of decimal digit characters, most significant
first (accumulator style, as the leading-digits scan of the JS parsers). -/
def digitsVal (ds : List Char) : ℕ :=
  ds.foldl (fun n c => 10 * n + (c.toNat - 48)) 0

/-- Split a leading optional sign character; `true` means negative. -/
def readSign : List Char → Bool × List Char
  | '-' :: cs => (true, cs)
  | '+' :: cs => (false, cs)
  | cs => (false, cs)

/-- Take the maximal run of leading decimal digits. -/
def spanDigits (cs : List Char) : List Char × List Char :=
  cs.span (fun c => c.isDigit)

/-- Exponent suffix of a JS float literal: `e`/`E`, optional sign, digits.
A malformed exponent (no digits) contributes nothing, as in JS `parseFloat`
which stops before the `e`. -/
def readExponent (cs : List Char) : ℤ :=
  match cs with
  | 'e' :: rest =>
      let (neg, rest2) := readSign rest
      let (ds, _) := spanDigits rest2
      if ds.isEmpty then 0
      else if neg then -(digitsVal ds : ℤ) else (digitsVal ds : ℤ)
  | 'E' :: rest =>
      let (neg, rest2) := readSign rest
      let (ds, _) := spanDigits rest2
      if ds.isEmpty then 0
      else if neg then -(digitsVal ds : ℤ) else (digitsVal ds : ℤ)
  | _ => 0

/-- Model of JS `parseFloat`: skip leading whitespace, optional sign,
decimal digits, optional fraction, optional exponent; `none` (NaN) when no
digit occurs before the exponent position.  The value
`(intPart + fracPart / 10 ^ k) * 10 ^ e` is assembled as the single
rational `digits * 10 ^ (e - k)` so that it evaluates by kernel
reduction. -/
def parseFloat (s : String) : Option ℚ :=
  let cs := s.toList.dropWhile (fun c => c.isWhitespace)
  let (neg, cs1) := readSign cs
  let (ip, cs2) := spanDigits cs1
  let (fp, cs3) :=
    match cs2 with
    | '.' :: rest => spanDigits rest
    | _ => ([], cs2)
  if ip.isEmpty && fp.isEmpty then none
  else
    let e := readExponent cs3
    let m : ℕ := digitsVal (ip ++ fp)
    let shift : ℤ := e - fp.length
    let v : ℚ :=
      if 0 ≤ shift then mkRat (m * 10 ^ shift.toNat) 1
      else mkRat m (10 ^ (-shift).toNat)
    some (if neg then -v else v)

/-- Model of JS `parseInt` with unspecified radix on decimal input: skip
leading whitespace, optional sign, maximal run of decimal digits; `none`
(NaN) when there is no digit. -/
def parseInt (s : String) : Option ℤ :=
  let cs := s.toList.dropWhile (fun c => c.isWhitespace)
  let (neg, cs1) := readSign cs
  let (ds, _) := spanDigits cs1
  if ds.isEmpty then none
  else some (if neg then -(digitsVal ds : ℤ) else (digitsVal ds : ℤ))

/-! ### Price Fetcher (electricityPriceService.ts) -/

/-- Raw upstream feed record (`PriceData` in electricityPriceService.ts):
string-encoded millisecond timestamp and string-encoded price. -/
structure PriceData where
  millisUTC : String
  price : String
  deriving DecidableEq

/-- Result of `response.json()`: either the JSON parse throws, or it yields
`null`/`undefined` (`none`) or an array of feed records (`some`). -/
inductive JsonBody where
  | parseError
  | value (v : Option (List PriceData))
  deriving DecidableEq

/-- Outcome of the HTTP `fetch` call: the promise rejects (network error),
or a response arrives carrying its `ok` flag and a body. -/
inductive FetchResponse where
  | networkError
  | response (ok : Bool) (body : JsonBody)
  deriving DecidableEq

/-- The structured price point `fetchCurrentPrice` builds on success.
`price = none` models NaN (malformed price string); `timestamp = none`
models `new Date(NaN)`, an Invalid Date. -/
structure PricePoint where
  price : Option ℚ
  timestamp : Option ℤ
  isUnderThreshold : Bool
  deriving DecidableEq

/-- `PRICE_THRESHOLD` constant: 8.0 cents per kWh. -/
def PRICE_THRESHOLD : ℚ := 8

/-- JS comparison `price < PRICE_THRESHOLD` where `price` may be NaN:
any comparison against NaN is false. -/
def underThresholdOf (p : Option ℚ) : Bool :=
  match p with
  | some v => decide (v < PRICE_THRESHOLD)
  | none => false

/-- `ElectricityPriceService.fetchCurrentPrice`: throws (and catches,
returning `null`) on a non-ok status, a JSON parse error, a null body or an
empty array; otherwise builds a `PricePoint` from the first record via
`parseFloat`/`parseInt`. -/
def fetchCurrentPrice : FetchResponse → Option PricePoint
  | .networkError => none
  | .response ok body =>
      if !ok then none
      else
        match body with
        | .parseError => none
        | .value none => none
        | .value (some []) => none
        | .value (some (mostRecent :: _)) =>
            let price := parseFloat mostRecent.price
            let timestamp := parseInt mostRecent.millisUTC
            some { price := price
                   timestamp := timestamp
                   isUnderThreshold := underThresholdOf price }

/-- `ElectricityPriceService.getPriceHistory`: the full decoded array on
success (`data || []` turns a null body into `[]`); the catch handler turns
a network error, a non-ok status or a JSON parse error into `[]`. -/
def getPriceHistory : FetchResponse → List PriceData
  | .networkError => []
  | .response ok body =>
      if !ok then []
      else
        match body with
        | .parseError => []
        | .value none => []
        | .value (some data) => data

/-! ### Notifier (notificationService.ts) -/

/-- OS-level notification permission status as reported by
`Notifications.getPermissionsAsync` / `requestPermissionsAsync`. -/
inductive PermStatus where
  | granted
  | denied
  | undetermined
  deriving DecidableEq

/-- Environment for the permission capability: the status the platform
currently reports, and the status the user's answer to a prompt would
produce. -/
structure PermEnv where
  current : PermStatus
  promptResult : PermStatus
  deriving DecidableEq

/-- `NotificationService.requestPermissions`: read the existing status; if
it is not granted, prompt once (the prompt's answer becomes the platform's
new current status); return whether the final status is granted.  The
result records the returned Bool, the number of prompts issued, and the
environment afterwards. -/
def requestPermissions (env : PermEnv) : Bool × ℕ × PermEnv :=
  let existingStatus := env.current
  if existingStatus ≠ PermStatus.granted then
    let status := env.promptResult
    (decide (status = PermStatus.granted), 1, { env with current := status })
  else
    (decide (existingStatus = PermStatus.granted), 0, env)

/-- Behaviour of the delivery capability
(`Notifications.scheduleNotificationAsync`) for one call: it either
delivers, or throws with a message. -/
inductive DeliveryOutcome where
  | delivered
  | throws (msg : String)
  deriving DecidableEq

/-- Observable result of `sendLowPriceNotification`: whether an error
propagated to the caller, whether the catch handler logged an error, and
the price carried by a delivered alert. -/
structure NotifyResult where
  raised : Option String
  loggedError : Bool
  sentPrice : Option ℚ
  deriving DecidableEq

/-- `NotificationService.sendLowPriceNotification`: schedules an immediate
alert carrying the price; its try/catch swallows and logs a delivery
failure, so no error ever reaches the caller. -/
def sendLowPriceNotification (price : ℚ) (delivery : DeliveryOutcome) : NotifyResult :=
  match delivery with
  | .delivered => { raised := none, loggedError := false, sentPrice := some price }
  | .throws _ => { raised := none, loggedError := true, sentPrice := none }

/-! ### Scheduler: timer-based BackgroundTaskService (src/unnamed/part_000) -/

/-- The host's timer table: the next interval id `setInterval` would hand
out, and the ids of the currently active repeating timers. -/
structure TimerWorld where
  nextId : ℕ
  active : List ℕ
  deriving DecidableEq

/-- `setInterval`: allocate a fresh repeating timer, returning its id. -/
def setIntervalW (w : TimerWorld) : ℕ × TimerWorld :=
  (w.nextId, { nextId := w.nextId + 1, active := w.active ++ [w.nextId] })

/-- `clearInterval id`: deactivate the timer with that id. -/
def clearIntervalW (w : TimerWorld) (id : ℕ) : TimerWorld :=
  { w with active := w.active.filter (fun i => i ≠ id) }

/-- `BackgroundTaskService`'s static fields: the stored interval handle and
the `isMonitoring` flag. -/
structure SchedulerState where
  monitoringInterval : Option ℕ
  isMonitoring : Bool
  deriving DecidableEq

/-- Whether `NotificationService.configurePushNotifications` completes or
throws when the Scheduler calls it. -/
inductive ConfigOutcome where
  | ok
  | throws (msg : String)
  deriving DecidableEq

/-- `BackgroundTaskService.startPeriodicPriceCheck` (timer-based variant):
logged no-op when already monitoring; otherwise configure notifications
(a throw there is caught by the surrounding try/catch, which only logs, so
the state is left untouched and nothing propagates), then install the
15-minute interval and set `isMonitoring`. -/
def startPeriodicPriceCheck (s : SchedulerState) (w : TimerWorld) (cfg : ConfigOutcome) :
    SchedulerState × TimerWorld :=
  if s.isMonitoring then (s, w)
  else
    match cfg with
    | .throws _ => (s, w)
    | .ok =>
        let (id, w2) := setIntervalW w
        ({ monitoringInterval := some id, isMonitoring := true }, w2)

/-- `BackgroundTaskService.stopPeriodicPriceCheck` (timer-based variant):
clear the stored interval if any, null the handle, drop the flag. -/
def stopPeriodicPriceCheck (s : SchedulerState) (w : TimerWorld) :
    SchedulerState × TimerWorld :=
  let (s1, w1) :=
    match s.monitoringInterval with
    | some id => ({ s with monitoringInterval := none }, clearIntervalW w id)
    | none => (s, w)
  ({ s1 with isMonitoring := false }, w1)

/-! ### Monitor State Controller (useElectricityPriceMonitor.ts) -/

/-- The hook's state fields (`backgroundTaskStatus` is a separate display
poll and plays no role in the claims). -/
structure MonitorState where
  currentPrice : Option PricePoint
  isLoading : Bool
  error : Option String
  isMonitoring : Bool
  deriving DecidableEq

/-- `refreshPrice`: set `isLoading`, clear `error`, fetch; on a non-null
result store it (the low-price notification swallows its own failures and
does not alter hook state); on `null` set the fixed error message; the
finally block always clears `isLoading`.  `fetchCurrentPrice` never throws
(it catches internally), so the hook's catch branch is unreachable for
every modelled input. -/
def refreshPrice (m : MonitorState) (resp : FetchResponse) : MonitorState :=
  let m1 := { m with isLoading := true, error := none }
  let m2 :=
    match fetchCurrentPrice resp with
    | some priceData => { m1 with currentPrice := some priceData }
    | none => { m1 with error := some "Failed to fetch price data" }
  { m2 with isLoading := false }

/-- The hook plus its collaborators: monitor state, the timer-based
Scheduler's static state, and the host timer table. -/
structure SysState where
  monitor : MonitorState
  sched : SchedulerState
  world : TimerWorld
  deriving DecidableEq

/-- `startMonitoring`: call the Scheduler's start (which never throws — it
catches internally), then `refreshPrice`, then set `isMonitoring := true`
and `error := null`.  The hook's own catch branch is unreachable because
neither callee propagates an error. -/
def startMonitoring (sys : SysState) (cfg : ConfigOutcome) (resp : FetchResponse) : SysState :=
  let (sch2, w2) := startPeriodicPriceCheck sys.sched sys.world cfg
  let m2 := refreshPrice sys.monitor resp
  { monitor := { m2 with isMonitoring := true, error := none }
    sched := sch2
    world := w2 }

/-- `stopMonitoring`: call the Scheduler's stop (never throws), then set
`isMonitoring := false` and `error := null`. -/
def stopMonitoring (sys : SysState) : SysState :=
  let (sch2, w2) := stopPeriodicPriceCheck sys.sched sys.world
  { monitor := { sys.monitor with isMonitoring := false, error := none }
    sched := sch2
    world := w2 }

/-- `toggleMonitoring`: stop when the hook's `isMonitoring` is set, else
start. -/
def toggleMonitoring (sys : SysState) (cfg : ConfigOutcome) (resp : FetchResponse) : SysState :=
  if sys.monitor.isMonitoring then stopMonitoring sys
  else startMonitoring sys cfg resp

/-! ### Claims -/

/-- C1: for every feed response that is a non-empty array whose first
record has a parsable decimal `price` and a parsable integer `millisUTC`,
`fetchCurrentPrice` returns a `PricePoint` whose price is the parsed
decimal, whose timestamp is the parsed millisecond epoch and whose
`isUnderThreshold` is `price < 8.0`; the records after the first do not
affect the result. -/
theorem fetchCurrentPrice_valid_first (r : PriceData) (rest rest2 : List PriceData)
    (p : ℚ) (t : ℤ) (hp : parseFloat r.price = some p) (ht : parseInt r.millisUTC = some t) :
    fetchCurrentPrice (.response true (.value (some (r :: rest)))) =
      some { price := some p, timestamp := some t,
             isUnderThreshold := decide (p < PRICE_THRESHOLD) } ∧
    fetchCurrentPrice (.response true (.value (some (r :: rest)))) =
      fetchCurrentPrice (.response true (.value (some (r :: rest2)))) := by
  constructor
  · simp [fetchCurrentPrice, hp, ht, underThresholdOf]
  · simp [fetchCurrentPrice]

/-- C1 witness: the concrete feed `[{millisUTC:"1700000000000", price:"5.50"},
{millisUTC:"0", price:"99"}]` yields price 11/2, timestamp 1700000000000,
under-threshold true, and dropping the second record changes nothing. -/
theorem fetchCurrentPrice_valid_first_witness :
    fetchCurrentPrice (.response true (.value (some
        [⟨"1700000000000", "5.50"⟩, ⟨"0", "99"⟩]))) =
      some { price := some (mkRat 11 2), timestamp := some 1700000000000,
             isUnderThreshold := decide (mkRat 11 2 < PRICE_THRESHOLD) } ∧
    fetchCurrentPrice (.response true (.value (some
        [⟨"1700000000000", "5.50"⟩, ⟨"0", "99"⟩]))) =
      fetchCurrentPrice (.response true (.value (some [⟨"1700000000000", "5.50"⟩]))) :=
  fetchCurrentPrice_valid_first ⟨"1700000000000", "5.50"⟩ [⟨"0", "99"⟩] []
    (mkRat 11 2) 1700000000000 (by decide) (by decide)

/-- C2 counterexample: a successful response whose single record has
malformed numeric fields does not produce the `FetchFailed` outcome
(`null`): `fetchCurrentPrice` returns a `PricePoint` with NaN price,
Invalid-Date timestamp and `isUnderThreshold = false`. -/
theorem fetchCurrentPrice_malformed_not_null :
    fetchCurrentPrice (.response true (.value (some
        [{ millisUTC := "oops", price := "oops" }]))) ≠ none := by
  decide

/-- C2 amended: a network error, a non-success HTTP status, a JSON parse
error, a null body and an empty array all collapse to the single `null`
outcome with no exception reaching the caller; but malformed numeric
fields in the first record do not: the call then returns a `PricePoint`
with NaN price, Invalid-Date timestamp and `isUnderThreshold = false`. -/
theorem fetchCurrentPrice_failure_modes :
    fetchCurrentPrice .networkError = none ∧
    (∀ body, fetchCurrentPrice (.response false body) = none) ∧
    fetchCurrentPrice (.response true .parseError) = none ∧
    fetchCurrentPrice (.response true (.value none)) = none ∧
    fetchCurrentPrice (.response true (.value (some []))) = none ∧
    ∀ (q : PriceData) (rest : List PriceData),
      parseFloat q.price = none → parseInt q.millisUTC = none →
      fetchCurrentPrice (.response true (.value (some (q :: rest)))) =
        some { price := none, timestamp := none, isUnderThreshold := false } := by
  refine ⟨rfl, fun body => rfl, rfl, rfl, rfl, fun q rest hp ht => ?_⟩
  simp [fetchCurrentPrice, hp, ht, underThresholdOf]

/-- C2 amended witness: the failure modes at the record
`{millisUTC:"oops", price:"oops"}`. -/
theorem fetchCurrentPrice_failure_modes_witness :
    fetchCurrentPrice (.response true (.value (some
        [{ millisUTC := "oops", price := "oops" }]))) =
      some { price := none, timestamp := none, isUnderThreshold := false } :=
  (fetchCurrentPrice_failure_modes.2.2.2.2.2 ⟨"oops", "oops"⟩ [] (by decide) (by decide))

/-- C3: whenever the fetch fails (network error or any `FetchFailed`
result, i.e. `fetchCurrentPrice` returns `null`), `refreshPrice` sets the
error to the fixed non-empty message, leaves `currentPrice` unchanged and
ends with `isLoading = false`; moreover every completion path of
`refreshPrice` ends with `isLoading = false`.  `refreshPrice` is a total
function of its inputs, so it never throws. -/
theorem refreshPrice_failure (m : MonitorState) (resp : FetchResponse)
    (h : fetchCurrentPrice resp = none) :
    (refreshPrice m resp).error = some "Failed to fetch price data" ∧
    "Failed to fetch price data" ≠ "" ∧
    (refreshPrice m resp).currentPrice = m.currentPrice ∧
    (refreshPrice m resp).isLoading = false ∧
    (refreshPrice m resp).isMonitoring = m.isMonitoring ∧
    ∀ (m2 : MonitorState) (resp2 : FetchResponse), (refreshPrice m2 resp2).isLoading = false := by
  refine ⟨by simp [refreshPrice, h], by decide, by simp [refreshPrice, h],
    by simp [refreshPrice, h], by simp [refreshPrice, h], fun m2 resp2 => ?_⟩
  unfold refreshPrice
  cases fetchCurrentPrice resp2 <;> rfl

/-- C3 witness: a network error against the empty initial monitor state. -/
theorem refreshPrice_failure_witness :
    (refreshPrice ⟨none, false, none, false⟩ .networkError).error =
      some "Failed to fetch price data" ∧
    "Failed to fetch price data" ≠ "" ∧
    (refreshPrice ⟨none, false, none, false⟩ .networkError).currentPrice =
      (⟨none, false, none, false⟩ : MonitorState).currentPrice ∧
    (refreshPrice ⟨none, false, none, false⟩ .networkError).isLoading = false ∧
    (refreshPrice ⟨none, false, none, false⟩ .networkError).isMonitoring =
      (⟨none, false, none, false⟩ : MonitorState).isMonitoring ∧
    ∀ (m2 : MonitorState) (resp2 : FetchResponse), (refreshPrice m2 resp2).isLoading = false :=
  refreshPrice_failure ⟨none, false, none, false⟩ .networkError rfl

/-- C4: what the code actually does when the Scheduler's configuration
step throws while the Scheduler is idle and the subsequent fetch succeeds:
`startMonitoring` completes with the hook's `isMonitoring = true` and
`error = null`, although the Scheduler installed no timer and its own flag
stayed false — the configuration failure was swallowed inside
`startPeriodicPriceCheck`, so the hook's error branch never runs. -/
theorem startMonitoring_config_failure_behavior :
    (startMonitoring ⟨⟨none, false, none, false⟩, ⟨none, false⟩, ⟨0, []⟩⟩
        (.throws "Notification configuration failed")
        (.response true (.value (some [⟨"1700000000000", "5.50"⟩])))).monitor.isMonitoring
      = true ∧
    (startMonitoring ⟨⟨none, false, none, false⟩, ⟨none, false⟩, ⟨0, []⟩⟩
        (.throws "Notification configuration failed")
        (.response true (.value (some [⟨"1700000000000", "5.50"⟩])))).monitor.error = none ∧
    (startMonitoring ⟨⟨none, false, none, false⟩, ⟨none, false⟩, ⟨0, []⟩⟩
        (.throws "Notification configuration failed")
        (.response true (.value (some [⟨"1700000000000", "5.50"⟩])))).world.active = [] ∧
    (startMonitoring ⟨⟨none, false, none, false⟩, ⟨none, false⟩, ⟨0, []⟩⟩
        (.throws "Notification configuration failed")
        (.response true (.value (some [⟨"1700000000000", "5.50"⟩])))).sched.isMonitoring
      = false := by
  decide

/-- C5: a `startPeriodicPriceCheck` call in a Running state is a no-op on
both the Scheduler state and the timer table; and starting twice from the
idle state with an empty timer table leaves exactly one active timer and
the Scheduler Running, whatever the second call's configuration outcome. -/
theorem start_running_noop_no_duplicate (s : SchedulerState) (w : TimerWorld)
    (cfg cfg2 : ConfigOutcome) (n : ℕ) (hrun : s.isMonitoring = true) :
    startPeriodicPriceCheck s w cfg = (s, w) ∧
    (startPeriodicPriceCheck
        (startPeriodicPriceCheck ⟨none, false⟩ ⟨n, []⟩ .ok).1
        (startPeriodicPriceCheck ⟨none, false⟩ ⟨n, []⟩ .ok).2 cfg2).2.active.length = 1 ∧
    (startPeriodicPriceCheck
        (startPeriodicPriceCheck ⟨none, false⟩ ⟨n, []⟩ .ok).1
        (startPeriodicPriceCheck ⟨none, false⟩ ⟨n, []⟩ .ok).2 cfg2).1.isMonitoring = true := by
  refine ⟨?_, ?_, ?_⟩
  · simp [startPeriodicPriceCheck, hrun]
  · simp [startPeriodicPriceCheck, setIntervalW]
  · simp [startPeriodicPriceCheck, setIntervalW]

/-- C5 witness: a Running scheduler holding timer 7, table with id 7
active; and the double start from idle at fresh id 0. -/
theorem start_running_noop_no_duplicate_witness :
    startPeriodicPriceCheck ⟨some 7, true⟩ ⟨8, [7]⟩ .ok = (⟨some 7, true⟩, ⟨8, [7]⟩) ∧
    (startPeriodicPriceCheck
        (startPeriodicPriceCheck ⟨none, false⟩ ⟨0, []⟩ .ok).1
        (startPeriodicPriceCheck ⟨none, false⟩ ⟨0, []⟩ .ok).2 .ok).2.active.length = 1 ∧
    (startPeriodicPriceCheck
        (startPeriodicPriceCheck ⟨none, false⟩ ⟨0, []⟩ .ok).1
        (startPeriodicPriceCheck ⟨none, false⟩ ⟨0, []⟩ .ok).2 .ok).1.isMonitoring = true :=
  start_running_noop_no_duplicate ⟨some 7, true⟩ ⟨8, [7]⟩ .ok .ok 0 rfl

/-- C6: from an Idle system (hook not monitoring, Scheduler idle with no
stored handle, no active timer), two consecutive `toggleMonitoring` calls
return to Idle: hook flag false, no active timer, Scheduler flag false and
no stored handle — whatever the configuration and fetch outcomes of each
call. -/
theorem toggle_toggle_idle (m : MonitorState) (cfg cfg2 : ConfigOutcome)
    (resp resp2 : FetchResponse) (n : ℕ) (hm : m.isMonitoring = false) :
    (toggleMonitoring (toggleMonitoring ⟨m, ⟨none, false⟩, ⟨n, []⟩⟩ cfg resp)
        cfg2 resp2).monitor.isMonitoring = false ∧
    (toggleMonitoring (toggleMonitoring ⟨m, ⟨none, false⟩, ⟨n, []⟩⟩ cfg resp)
        cfg2 resp2).world.active = [] ∧
    (toggleMonitoring (toggleMonitoring ⟨m, ⟨none, false⟩, ⟨n, []⟩⟩ cfg resp)
        cfg2 resp2).sched.isMonitoring = false ∧
    (toggleMonitoring (toggleMonitoring ⟨m, ⟨none, false⟩, ⟨n, []⟩⟩ cfg resp)
        cfg2 resp2).sched.monitoringInterval = none := by
  cases cfg <;>
    simp [toggleMonitoring, startMonitoring, stopMonitoring, startPeriodicPriceCheck,
      stopPeriodicPriceCheck, setIntervalW, clearIntervalW, hm]

/-- C6 witness: the empty initial monitor state, configuration succeeding
and fetches failing with network errors, fresh timer id 0. -/
theorem toggle_toggle_idle_witness :
    (toggleMonitoring (toggleMonitoring ⟨⟨none, false, none, false⟩, ⟨none, false⟩, ⟨0, []⟩⟩
        .ok .networkError) .ok .networkError).monitor.isMonitoring = false ∧
    (toggleMonitoring (toggleMonitoring ⟨⟨none, false, none, false⟩, ⟨none, false⟩, ⟨0, []⟩⟩
        .ok .networkError) .ok .networkError).world.active = [] ∧
    (toggleMonitoring (toggleMonitoring ⟨⟨none, false, none, false⟩, ⟨none, false⟩, ⟨0, []⟩⟩
        .ok .networkError) .ok .networkError).sched.isMonitoring = false ∧
    (toggleMonitoring (toggleMonitoring ⟨⟨none, false, none, false⟩, ⟨none, false⟩, ⟨0, []⟩⟩
        .ok .networkError) .ok .networkError).sched.monitoringInterval = none :=
  toggle_toggle_idle ⟨none, false, none, false⟩ .ok .ok .networkError .networkError 0 rfl

/-- C7: when permission is already granted, `requestPermissions` returns
true with zero prompts and an unchanged environment, and a second call in
that state again returns true with zero prompts. -/
theorem requestPermissions_granted_idempotent (env : PermEnv)
    (h : env.current = PermStatus.granted) :
    requestPermissions env = (true, 0, env) ∧
    requestPermissions (requestPermissions env).2.2 = (true, 0, env) := by
  have h1 : requestPermissions env = (true, 0, env) := by
    simp [requestPermissions, h]
  exact ⟨h1, by rw [h1]; exact h1⟩

/-- C7 witness: the granted environment whose hypothetical prompt would be
denied — it is never consulted. -/
theorem requestPermissions_granted_idempotent_witness :
    requestPermissions ⟨PermStatus.granted, PermStatus.denied⟩ =
      (true, 0, ⟨PermStatus.granted, PermStatus.denied⟩) ∧
    requestPermissions
        (requestPermissions ⟨PermStatus.granted, PermStatus.denied⟩).2.2 =
      (true, 0, ⟨PermStatus.granted, PermStatus.denied⟩) :=
  requestPermissions_granted_idempotent ⟨PermStatus.granted, PermStatus.denied⟩ rfl

/-- C8: for every price and every behaviour of the delivery capability,
`sendLowPriceNotification` raises nothing to its caller; a throwing
delivery is swallowed and logged, and a successful delivery carries the
price. -/
theorem sendLowPriceNotification_never_raises (price : ℚ) (delivery : DeliveryOutcome) :
    (sendLowPriceNotification price delivery).raised = none ∧
    (∀ msg, sendLowPriceNotification price (.throws msg) =
      { raised := none, loggedError := true, sentPrice := none }) ∧
    sendLowPriceNotification price .delivered =
      { raised := none, loggedError := false, sentPrice := some price } := by
  refine ⟨?_, fun msg => rfl, rfl⟩
  cases delivery <;> rfl

/-- C9: `getPriceHistory` returns the feed array verbatim on a successful
response, and the empty list on every failure (network error, non-success
status, JSON parse error, null body), never propagating an error (it is a
total function of the response). -/
theorem getPriceHistory_verbatim_or_empty (data : List PriceData) (body : JsonBody) :
    getPriceHistory (.response true (.value (some data))) = data ∧
    getPriceHistory (.response false body) = [] ∧
    getPriceHistory .networkError = [] ∧
    getPriceHistory (.response true .parseError) = [] ∧
    getPriceHistory (.response true (.value none)) = [] := by
  exact ⟨rfl, rfl, rfl, rfl, rfl⟩

/-- C10: `stopMonitoring` sets the hook's `isMonitoring` to false and also
clears `error` to null, while leaving `currentPrice` and `isLoading`
unchanged, from every prior system state. -/
theorem stopMonitoring_clears_error (sys : SysState) :
    (stopMonitoring sys).monitor.isMonitoring = false ∧
    (stopMonitoring sys).monitor.error = none ∧
    (stopMonitoring sys).monitor.currentPrice = sys.monitor.currentPrice ∧
    (stopMonitoring sys).monitor.isLoading = sys.monitor.isLoading := by
  exact ⟨rfl, rfl, rfl, rfl⟩

end Volty
